import Mathlib

/-!
Verification of the GeoLM integration (tokenizer adapter and model contract).

The repository excerpt contains the fast-tokenizer adapter
(`tokenization_geolm_fast.py`) and the model test suite
(`test_modeling_geolm.py`).  The transformer encoder itself
(`modeling_geolm.py`) is not among the supplied files, so its forward pass
is modelled from the specification: a BERT-style encoder with optional
attention mask, token type ids and spatial (x, y) coordinate inputs, three
position-embedding variants, dropout disabled in evaluation mode, and a
last-hidden-state output of shape (batch, seq_len, hidden_size).
Numeric values are rationals; the exact coordinate-to-embedding transform,
activation and loss formulas are left as parameters (weights), exactly as
the specification leaves them open.
-/

/-- Position-embedding variant selected by the configuration. -/
inductive PosEmbType where
  | absolute
  | relative_key
  | relative_key_query
deriving DecidableEq, Repr

/-- Modelled from the spec: the immutable configuration record describing
model dimensions (vocabulary size, hidden size, layers/heads, intermediate
size, maximum sequence length, type-vocabulary size, position-embedding
variant, decoder flag, label count). -/
structure GeoLMConfig where
  vocab_size : Nat
  hidden_size : Nat
  num_hidden_layers : Nat
  num_attention_heads : Nat
  intermediate_size : Nat
  max_position_embeddings : Nat
  type_vocab_size : Nat
  position_embedding_type : PosEmbType
  is_decoder : Bool
  num_labels : Nat

/-- Per-layer weights of the encoder: query/key/value/output projections,
the relative-distance embedding table used by the relative position
variants, and the two feed-forward projections. -/
structure GeoLMLayerWeights where
  wq : Nat → Nat → ℚ
  wk : Nat → Nat → ℚ
  wv : Nat → Nat → ℚ
  wo : Nat → Nat → ℚ
  distance_embedding : Int → Nat → ℚ
  w1 : Nat → Nat → ℚ
  w2 : Nat → Nat → ℚ

/-- Modelled from the spec: the learned state of the model.  The
coordinate-to-embedding transform (`spatial_embeddings`) and the
activation are open design choices in the spec, so they are carried as
arbitrary functions. -/
structure GeoLMWeights where
  word_embeddings : Nat → Nat → ℚ
  position_embeddings : Nat → Nat → ℚ
  token_type_embeddings : Nat → Nat → ℚ
  spatial_embeddings : ℚ → ℚ → Nat → ℚ
  layers : Nat → GeoLMLayerWeights
  act : ℚ → ℚ
  classifier : Nat → Nat → ℚ

/-- Dropout: in training mode each slot is kept or zeroed according to the
randomness stream; in evaluation mode it is the identity (the spec's
"dropout disabled in evaluation mode"). -/
def dropout : Bool → (Nat → Bool) → Nat → ℚ → ℚ
  | false, _, _, v => v
  | true, keep, i, v => if keep i then v else 0

/-- Dot product of two feature vectors over the first `n` coordinates. -/
def dotFn (n : Nat) (u v : Nat → ℚ) : ℚ :=
  ((List.range n).map (fun i => u i * v i)).sum

/-- Linear projection: row `h` of the matrix dotted with the vector over
`n` input coordinates. -/
def proj (m : Nat → Nat → ℚ) (n : Nat) (v : Nat → ℚ) : Nat → ℚ :=
  fun h => dotFn n (m h) v

/-- Modelled from the spec: the input embedding of one token — word
embedding plus (for the absolute variant) sequential position embedding
plus token-type embedding plus, when coordinates are present, the spatial
position embedding; dropout applied on top. -/
def GeoLMEmbeddings (cfg : GeoLMConfig) (w : GeoLMWeights) (training : Bool)
    (rng : Nat → Bool) (tok pos ttype : Nat) (sp : Option (ℚ × ℚ)) : Nat → ℚ :=
  fun h =>
    dropout training rng (pos * cfg.hidden_size + h)
      (w.word_embeddings tok h
        + (if cfg.position_embedding_type = PosEmbType.absolute then
            w.position_embeddings pos h
          else 0)
        + w.token_type_embeddings ttype h
        + (match sp with
           | none => 0
           | some p => w.spatial_embeddings p.1 p.2 h))

/-- Raw attention score between query position `i` and key position `j`,
per position-embedding variant: the relative variants add a
distance-embedding term against the query (and, for relative_key_query,
also against the key). -/
def attnScore (cfg : GeoLMConfig) (lw : GeoLMLayerWeights)
    (hs : Nat → Nat → ℚ) (i j : Nat) : ℚ :=
  let n := cfg.hidden_size
  let q := proj lw.wq n (hs i)
  let k := proj lw.wk n (hs j)
  let base := dotFn n q k
  match cfg.position_embedding_type with
  | PosEmbType.absolute => base
  | PosEmbType.relative_key =>
      base + dotFn n q (lw.distance_embedding ((i : Int) - (j : Int)))
  | PosEmbType.relative_key_query =>
      base + dotFn n q (lw.distance_embedding ((i : Int) - (j : Int)))
           + dotFn n k (lw.distance_embedding ((i : Int) - (j : Int)))

/-- Attention score after masking: padding positions (mask 0) contribute
nothing, and in decoder mode future positions are causally masked. -/
def maskedScore (cfg : GeoLMConfig) (lw : GeoLMLayerWeights)
    (mask : Nat → ℚ) (hs : Nat → Nat → ℚ) (i j : Nat) : ℚ :=
  if mask j = 0 then 0
  else if cfg.is_decoder ∧ i < j then 0
  else attnScore cfg lw hs i j

/-- One encoder layer: masked self-attention (scores dropped out in
training), output projection with residual, then the two-projection
feed-forward block with activation and residual. -/
def GeoLMLayer (cfg : GeoLMConfig) (lw : GeoLMLayerWeights) (actF : ℚ → ℚ)
    (training : Bool) (rng : Nat → Bool) (mask : Nat → ℚ) (seqLen : Nat)
    (hs : Nat → Nat → ℚ) : Nat → Nat → ℚ :=
  let n := cfg.hidden_size
  let ctx : Nat → Nat → ℚ := fun i h =>
    ((List.range seqLen).map (fun j =>
      dropout training rng (i * seqLen + j) (maskedScore cfg lw mask hs i j)
        * proj lw.wv n (hs j) h)).sum
  let attnOut : Nat → Nat → ℚ := fun i h =>
    dropout training rng (i * n + h) (proj lw.wo n (ctx i) h) + hs i h
  let inter : Nat → Nat → ℚ := fun i h => actF (proj lw.w1 n (attnOut i) h)
  fun i h =>
    dropout training rng (i * n + h)
      (proj lw.w2 cfg.intermediate_size (inter i) h) + attnOut i h

/-- The encoder stack: the configured number of layers folded over the
input embeddings. -/
def GeoLMEncoder (cfg : GeoLMConfig) (w : GeoLMWeights) (training : Bool)
    (rng : Nat → Bool) (mask : Nat → ℚ) (seqLen : Nat)
    (h0 : Nat → Nat → ℚ) : Nat → Nat → ℚ :=
  (List.range cfg.num_hidden_layers).foldl
    (fun hs l => GeoLMLayer cfg (w.layers l) w.act training rng mask seqLen hs) h0

/-- Modelled from the spec: the base model forward pass
(`modeling_geolm.py` is not among the supplied files).  Accepts the
required token-id batch and the four optional inputs — attention mask,
token type ids, spatial x and y coordinate sequences — with their default
interpretations (all-attend mask, all-zero type ids, no spatial term), and
returns the last hidden state as a (batch, seq_len, hidden_size) nested
list. -/
def GeoLMModel.forward (cfg : GeoLMConfig) (w : GeoLMWeights)
    (training : Bool) (rng : Nat → Bool)
    (input_ids : List (List Nat))
    (attention_mask : Option (List (List Nat)))
    (token_type_ids : Option (List (List Nat)))
    (spatial_position_list_x : Option (List (List ℚ)))
    (spatial_position_list_y : Option (List (List ℚ))) :
    List (List (List ℚ)) :=
  (List.range input_ids.length).map (fun b =>
    let toks := input_ids.getD b []
    let mask : Nat → ℚ := fun j =>
      match attention_mask with
      | none => 1
      | some m => (((m.getD b []).getD j 1 : Nat) : ℚ)
    let ttype : Nat → Nat := fun j =>
      match token_type_ids with
      | none => 0
      | some t => (t.getD b []).getD j 0
    let sp : Nat → Option (ℚ × ℚ) := fun j =>
      match spatial_position_list_x, spatial_position_list_y with
      | some xs, some ys => some ((xs.getD b []).getD j 0, (ys.getD b []).getD j 0)
      | _, _ => none
    let h0 : Nat → Nat → ℚ := fun p h =>
      GeoLMEmbeddings cfg w training rng (toks.getD p 0) p (ttype p) (sp p) h
    let hsF := GeoLMEncoder cfg w training rng mask toks.length h0
    (List.range toks.length).map (fun p =>
      (List.range cfg.hidden_size).map (fun h => hsF p h)))

/-- Shape of a (batch, seq, feature) nested list: per batch row, the list
of per-position feature-vector lengths. -/
def shape3 (o : List (List (List ℚ))) : List (List Nat) :=
  o.map (fun plane => plane.map List.length)

/-- Output of the token-classification head: optional loss (present only
when labels were supplied) and per-token label logits. -/
structure TokenClassifierOutput where
  loss : Option ℚ
  logits : List (List (List ℚ))

/-- Dot product of a matrix row against a concrete feature-vector list. -/
def dotList (row : Nat → ℚ) (v : List ℚ) : ℚ :=
  ((List.range v.length).map (fun i => row i * v.getD i 0)).sum

/-- Modelled from the spec: the token-classification loss.  The spec fixes
only that a loss value is computed exactly when labels are supplied; the
formula itself is unspecified, so a simple computable surrogate (negated
sum of the gold-label logits) stands in for it. -/
def tokenClassLoss (logits : List (List (List ℚ))) (labels : List (List Nat)) : ℚ :=
  -(((List.range logits.length).map (fun b =>
      ((List.range (logits.getD b []).length).map (fun p =>
        ((logits.getD b []).getD p []).getD ((labels.getD b []).getD p 0) 0)).sum)).sum)

/-- Modelled from the spec: the token-classification model — the shared
encoder followed by a linear projection of each final hidden state onto
`num_labels` logits, with a loss exactly when token labels are supplied. -/
def GeoLMForTokenClassification.forward (cfg : GeoLMConfig) (w : GeoLMWeights)
    (training : Bool) (rng : Nat → Bool)
    (input_ids : List (List Nat))
    (attention_mask : Option (List (List Nat)))
    (token_type_ids : Option (List (List Nat)))
    (spatial_position_list_x : Option (List (List ℚ)))
    (spatial_position_list_y : Option (List (List ℚ)))
    (labels : Option (List (List Nat))) : TokenClassifierOutput :=
  let hidden := GeoLMModel.forward cfg w training rng input_ids attention_mask
    token_type_ids spatial_position_list_x spatial_position_list_y
  let logits := hidden.map (fun plane => plane.map (fun v =>
    (List.range cfg.num_labels).map (fun c => dotList (w.classifier c) v)))
  { loss := labels.map (fun ls => tokenClassLoss logits ls), logits := logits }

/-- Output record of one fast-tokenizer encoding call: token ids,
attention mask and segment/type ids. -/
structure TokenizationOutput where
  input_ids : List Nat
  attention_mask : List Nat
  token_type_ids : List Nat
deriving DecidableEq, Repr

/-- A fast-tokenizer class as a record: the declarative class attributes
(file-name table, per-checkpoint maximum input sizes, per-checkpoint
initialization configuration) together with the end-to-end encoding
method.  The WordPiece algorithm itself is an external capability, so the
method is a field rather than a fixed function. -/
structure FastTokenizerClass where
  vocab_files_names : String → Option String
  pretrained_vocab_files_map : String → Option String
  max_model_input_sizes : String → Option Nat
  pretrained_init_do_lower_case : String → Option Bool
  encode : (String → Option Nat) → String → TokenizationOutput

/-- From the source: VOCAB_FILES_NAMES maps the key "vocab_file" to the
file name "vocab.txt". -/
def VOCAB_FILES_NAMES : String → Option String :=
  fun k => if k = "vocab_file" then some "vocab.txt" else none

/-- From the source: the per-checkpoint vocabulary-file URL table. -/
def PRETRAINED_VOCAB_FILES_MAP : String → Option String :=
  fun k => if k = "zekun-li/geolm-base-cased" then
    some "https://huggingface.co/zekun-li/geolm-base-cased/resolve/main/vocab.txt"
  else none

/-- From the source: the per-checkpoint maximum model input sizes. -/
def PRETRAINED_POSITIONAL_EMBEDDINGS_SIZES : String → Option Nat :=
  fun k => if k = "zekun-li/geolm-base-cased" then some 512 else none

/-- From the source: the per-checkpoint initialization configuration,
restricted to its single entry, do_lower_case = False. -/
def PRETRAINED_INIT_CONFIGURATION : String → Option Bool :=
  fun k => if k = "zekun-li/geolm-base-cased" then some false else none

/-- GeoLMTokenizerFast as defined in `tokenization_geolm_fast.py`: a
subclass of BertTokenizerFast that overrides only the four declarative
class attributes and inherits every method — in particular the encoding
method — unchanged from the given base class. -/
def GeoLMTokenizerFast (base : FastTokenizerClass) : FastTokenizerClass :=
  { base with
    vocab_files_names := VOCAB_FILES_NAMES
    pretrained_vocab_files_map := PRETRAINED_VOCAB_FILES_MAP
    max_model_input_sizes := PRETRAINED_POSITIONAL_EMBEDDINGS_SIZES
    pretrained_init_do_lower_case := PRETRAINED_INIT_CONFIGURATION }

/-- getD agrees with getElem on in-range indices. -/
theorem getD_eq_getElem_of_lt {α : Type} (l : List α) (d : α) {i : Nat}
    (h : i < l.length) : l.getD i d = l[i] := by
  simp [List.getD_eq_getElem?_getD, List.getElem?_eq_getElem h]

/-- The batch dimension of the forward output equals the number of input
rows. -/
theorem forward_length (cfg : GeoLMConfig) (w : GeoLMWeights) (tr : Bool)
    (rng : Nat → Bool) (ids : List (List Nat))
    (m t : Option (List (List Nat))) (sx sy : Option (List (List ℚ))) :
    (GeoLMModel.forward cfg w tr rng ids m t sx sy).length = ids.length := by
  simp [GeoLMModel.forward]

/-- Core shape lemma: the output shape is exactly the input row structure
with every position widened to a hidden_size feature vector, whatever the
optional inputs are. -/
theorem forward_shape3_eq (cfg : GeoLMConfig) (w : GeoLMWeights) (tr : Bool)
    (rng : Nat → Bool) (ids : List (List Nat))
    (m t : Option (List (List Nat))) (sx sy : Option (List (List ℚ))) :
    shape3 (GeoLMModel.forward cfg w tr rng ids m t sx sy) =
      ids.map (fun toks => toks.map (fun _ => cfg.hidden_size)) := by
  unfold shape3 GeoLMModel.forward
  simp only [List.map_map]
  apply List.ext_getElem
  · simp
  · intro b h1 h2
    simp only [List.getElem_map, List.getElem_range, Function.comp_apply, List.map_map]
    rw [getD_eq_getElem_of_lt ids [] (by simpa using h1)]
    apply List.ext_getElem
    · simp
    · intro p p1 p2
      simp

/-- Each output plane has one row per input token, each of width
hidden_size. -/
theorem forward_mem_shape (cfg : GeoLMConfig) (w : GeoLMWeights) (tr : Bool)
    (rng : Nat → Bool) (ids : List (List Nat))
    (m t : Option (List (List Nat))) (sx sy : Option (List (List ℚ))) :
    ∀ plane ∈ GeoLMModel.forward cfg w tr rng ids m t sx sy,
      (∃ b, ∃ hb : b < ids.length, plane.length = ids[b].length) ∧
      ∀ v ∈ plane, v.length = cfg.hidden_size := by
  intro plane hp
  unfold GeoLMModel.forward at hp
  simp only [List.mem_map, List.mem_range] at hp
  obtain ⟨b, hb, rfl⟩ := hp
  refine ⟨⟨b, hb, ?_⟩, ?_⟩
  · simp [getD_eq_getElem_of_lt ids [] hb, List.getElem?_eq_getElem hb]
  · intro v hv
    simp only [List.mem_map] at hv
    obtain ⟨p, hp2, rfl⟩ := hv
    simp

/-- Evaluation-mode dropout is the identity. -/
theorem dropout_false (rng : Nat → Bool) (i : Nat) (v : ℚ) :
    dropout false rng i v = v := rfl

/-- Concrete configuration used by witnesses. -/
def testConfig : GeoLMConfig :=
  { vocab_size := 99
    hidden_size := 4
    num_hidden_layers := 2
    num_attention_heads := 2
    intermediate_size := 5
    max_position_embeddings := 512
    type_vocab_size := 16
    position_embedding_type := PosEmbType.absolute
    is_decoder := false
    num_labels := 3 }

/-- Concrete per-layer weights used by witnesses. -/
def testLayerWeights : GeoLMLayerWeights :=
  { wq := fun _ _ => 1
    wk := fun _ _ => 1
    wv := fun _ _ => 1
    wo := fun _ _ => 1
    distance_embedding := fun _ _ => 1
    w1 := fun _ _ => 1
    w2 := fun _ _ => 1 }

/-- Concrete weights used by witnesses. -/
def testWeights : GeoLMWeights :=
  { word_embeddings := fun _ _ => 1
    position_embeddings := fun _ _ => 1
    token_type_embeddings := fun _ _ => 1
    spatial_embeddings := fun _ _ _ => 1
    layers := fun _ => testLayerWeights
    act := id
    classifier := fun _ _ => 1 }

/-- C1: for every configuration and every rectangular (batch_size,
seq_len) token-id input, the base forward pass called with only input_ids
returns a last_hidden_state whose first two dimensions are (batch_size,
seq_len) and whose third dimension is the configured hidden_size. -/
theorem geolm_C1 (cfg : GeoLMConfig) (w : GeoLMWeights) (tr : Bool)
    (rng : Nat → Bool) (ids : List (List Nat)) (batch seq : Nat)
    (hb : ids.length = batch) (hseq : ∀ row ∈ ids, row.length = seq) :
    (GeoLMModel.forward cfg w tr rng ids none none none none).length = batch ∧
    ∀ plane ∈ GeoLMModel.forward cfg w tr rng ids none none none none,
      plane.length = seq ∧ ∀ v ∈ plane, v.length = cfg.hidden_size := by
  constructor
  · rw [forward_length]; exact hb
  · intro plane hp
    obtain ⟨⟨b, hblt, hlen⟩, hin⟩ :=
      forward_mem_shape cfg w tr rng ids none none none none plane hp
    exact ⟨by rw [hlen]; exact hseq _ (List.getElem_mem hblt), hin⟩

/-- Witness for C1 at a concrete 2-by-3 input. -/
theorem geolm_C1_witness :
    (GeoLMModel.forward testConfig testWeights false (fun _ => true)
      [[1, 2, 3], [4, 5, 6]] none none none none).length = 2 ∧
    ∀ plane ∈ GeoLMModel.forward testConfig testWeights false (fun _ => true)
      [[1, 2, 3], [4, 5, 6]] none none none none,
      plane.length = 3 ∧ ∀ v ∈ plane, v.length = testConfig.hidden_size :=
  geolm_C1 testConfig testWeights false (fun _ => true) [[1, 2, 3], [4, 5, 6]]
    2 3 rfl (by decide)

/-- C2: on the same input_ids the forward output has identical shape for
every two combinations of the optional inputs (attention mask, token type
ids, spatial x/y coordinates); only the values may differ. -/
theorem geolm_C2 (cfg : GeoLMConfig) (w : GeoLMWeights) (tr : Bool)
    (rng : Nat → Bool) (ids : List (List Nat))
    (m t m' t' : Option (List (List Nat)))
    (x y x' y' : Option (List (List ℚ))) :
    shape3 (GeoLMModel.forward cfg w tr rng ids m t x y) =
    shape3 (GeoLMModel.forward cfg w tr rng ids m' t' x' y') := by
  rw [forward_shape3_eq, forward_shape3_eq]

/-- C5: whichever of the three position-embedding variants the
configuration selects, the forward output keeps the canonical
(batch_size, seq_len, hidden_size) shape. -/
theorem geolm_C5 (cfg : GeoLMConfig) (w : GeoLMWeights) (tr : Bool)
    (rng : Nat → Bool) (ids : List (List Nat))
    (m t : Option (List (List Nat))) (x y : Option (List (List ℚ)))
    (v : PosEmbType) :
    shape3 (GeoLMModel.forward { cfg with position_embedding_type := v }
      w tr rng ids m t x y) =
      ids.map (fun toks => toks.map (fun _ => cfg.hidden_size)) := by
  rw [forward_shape3_eq]

/-- C6: in evaluation mode (training = false) the forward pass does not
read the dropout randomness stream, so two calls on identical inputs give
identical outputs. -/
theorem geolm_C6 (cfg : GeoLMConfig) (w : GeoLMWeights)
    (rng rng' : Nat → Bool) (ids : List (List Nat))
    (m t : Option (List (List Nat))) (x y : Option (List (List ℚ))) :
    GeoLMModel.forward cfg w false rng ids m t x y =
    GeoLMModel.forward cfg w false rng' ids m t x y := by
  simp only [GeoLMModel.forward, GeoLMEncoder, GeoLMLayer, GeoLMEmbeddings,
    dropout_false]

/-- C7: with every optional input absent the forward pass is a total
function returning the normally shaped (batch_size, seq_len, hidden_size)
output — the default path is never an error. -/
theorem geolm_C7 (cfg : GeoLMConfig) (w : GeoLMWeights) (tr : Bool)
    (rng : Nat → Bool) (ids : List (List Nat)) :
    shape3 (GeoLMModel.forward cfg w tr rng ids none none none none) =
      ids.map (fun toks => toks.map (fun _ => cfg.hidden_size)) :=
  forward_shape3_eq cfg w tr rng ids none none none none

/-- Mapping every feature vector to a constant only depends on the shape
of the nested list. -/
theorem map_const_of_shape3 (o : List (List (List ℚ))) (k : Nat) :
    o.map (fun plane => plane.map (fun _ => k)) =
    (shape3 o).map (fun plane => plane.map (fun _ => k)) := by
  simp [shape3, List.map_map, Function.comp]

/-- When every inner vector is mapped to a vector of fixed length `k`,
the resulting shape is the input's outer structure with width `k`. -/
theorem shape3_map_inner (o : List (List (List ℚ))) (f : List ℚ → List ℚ)
    (k : Nat) (hf : ∀ v, (f v).length = k) :
    shape3 (o.map (fun plane => plane.map f)) =
      o.map (fun plane => plane.map (fun _ => k)) := by
  simp only [shape3, List.map_map]
  refine List.map_congr_left (fun plane _ => ?_)
  simp only [Function.comp_apply, List.map_map]
  refine List.map_congr_left (fun v _ => ?_)
  simp [Function.comp, hf]

/-- C9: with num_labels set to 3 in the configuration before head
construction, the token-classification forward pass returns logits of
shape (batch_size, seq_len, 3), and a loss value is present exactly when
token labels are supplied. -/
theorem geolm_C9 (cfg : GeoLMConfig) (w : GeoLMWeights) (tr : Bool)
    (rng : Nat → Bool) (ids : List (List Nat))
    (m t : Option (List (List Nat))) (x y : Option (List (List ℚ)))
    (labels : List (List Nat)) :
    shape3 ((GeoLMForTokenClassification.forward { cfg with num_labels := 3 }
        w tr rng ids m t x y (some labels)).logits) =
      ids.map (fun toks => toks.map (fun _ => 3)) ∧
    ((GeoLMForTokenClassification.forward { cfg with num_labels := 3 }
        w tr rng ids m t x y (some labels)).loss).isSome = true := by
  constructor
  · simp only [GeoLMForTokenClassification.forward]
    rw [shape3_map_inner _ _ 3 (by simp), map_const_of_shape3, forward_shape3_eq]
    simp [List.map_map, Function.comp]
  · simp [GeoLMForTokenClassification.forward]

/-- C8: GeoLMTokenizerFast overrides only declarative class attributes of
the Bert fast-tokenizer class and inherits its encoding method unchanged,
so on every vocabulary and input text it produces the same token ids,
attention mask and token type ids as the base tokenizer. -/
theorem geolm_C8 (base : FastTokenizerClass) (vocab : String → Option Nat)
    (text : String) :
    ((GeoLMTokenizerFast base).encode vocab text).input_ids =
      (base.encode vocab text).input_ids ∧
    ((GeoLMTokenizerFast base).encode vocab text).attention_mask =
      (base.encode vocab text).attention_mask ∧
    ((GeoLMTokenizerFast base).encode vocab text).token_type_ids =
      (base.encode vocab text).token_type_ids :=
  ⟨rfl, rfl, rfl⟩

/-- C10: for the pretrained checkpoint "zekun-li/geolm-base-cased" the
fast tokenizer declares a maximum model input size of 512 tokens and a
pretrained initialization with do_lower_case = false, whatever base class
it is built on. -/
theorem geolm_C10 (base : FastTokenizerClass) :
    (GeoLMTokenizerFast base).max_model_input_sizes "zekun-li/geolm-base-cased"
        = some 512 ∧
    (GeoLMTokenizerFast base).pretrained_init_do_lower_case
        "zekun-li/geolm-base-cased" = some false := by
  constructor <;>
    simp [GeoLMTokenizerFast, PRETRAINED_POSITIONAL_EMBEDDINGS_SIZES,
      PRETRAINED_INIT_CONFIGURATION]
